import Mathlib

/-!
Shallow embedding of `cc/subtle/ecies_hkdf_recipient_kem_boringssl.cc` from the
tink repository: the recipient side of the ECIES KEM.  The translation unit
defines a dispatcher (`EciesHkdfRecipientKemBoringSsl::New`), a NIST prime-curve
strategy (`EciesHkdfNistPCurveRecipientKemBoringSsl`) and a Curve25519 strategy
(`EciesHkdfX25519RecipientKemBoringSsl`).  External collaborators — point
decoding, ECDH, the HKDF derivation and the BoringSSL `X25519` primitive — are
modelled as an abstract environment of deterministic functions; the
domain-parameter lookup `SubtleUtilBoringSSL::GetEcGroup` (repository code
outside this translation unit) is modelled from the spec.
-/

/-- Byte strings (`std::string` / `absl::string_view` of bytes). -/
abbrev Bytes := List Nat

/-- The `util::error` codes this translation unit uses.  The spec's
`UnsupportedCurve` error kind is `util::error::UNIMPLEMENTED` in the code. -/
inductive ErrorCode where
  | INVALID_ARGUMENT
  | UNIMPLEMENTED
  | INTERNAL
  | UNKNOWN
  deriving DecidableEq, Repr

/-- `util::Status`: an error code together with a message. -/
structure Status where
  code : ErrorCode
  message : String
  deriving DecidableEq, Repr

/-- `util::StatusOr`: either an error status or a value. -/
abbrev StatusOr (α : Type) := Except Status α

/-- `subtle::EllipticCurveType` (the values this file mentions). -/
inductive EllipticCurveType where
  | UNKNOWN_CURVE
  | NIST_P256
  | NIST_P384
  | NIST_P521
  | CURVE25519
  deriving DecidableEq, Repr

/-- `subtle::EcPointFormat`. -/
inductive EcPointFormat where
  | UNKNOWN_FORMAT
  | UNCOMPRESSED
  | COMPRESSED
  deriving DecidableEq, Repr

/-- `subtle::HashType` (opaque here; only passed through to the derivation). -/
inductive HashType where
  | UNKNOWN_HASH
  | SHA1
  | SHA256
  | SHA512
  deriving DecidableEq, Repr

/-- Opaque handle for a decoded `EC_POINT`. -/
abbrev EcPoint := Nat

/-- Opaque handle for an `EC_GROUP` (curve domain parameters). -/
abbrev EcGroup := Nat

/-- `X25519_PRIVATE_KEY_LEN` from BoringSSL `curve25519.h`. -/
def X25519_PRIVATE_KEY_LEN : Nat := 32

/-- `X25519_PUBLIC_VALUE_LEN` from BoringSSL `curve25519.h`. -/
def X25519_PUBLIC_VALUE_LEN : Nat := 32

/-- `X25519_SHARED_KEY_LEN` from BoringSSL `curve25519.h`. -/
def X25519_SHARED_KEY_LEN : Nat := 32

/-- BoringSSL `BN_bin2bn`: the byte string interpreted as a big-endian
unsigned integer. -/
def BN_bin2bn (b : Bytes) : Nat :=
  b.foldl (fun acc x => acc * 256 + x) 0

/-- Modelled from the spec: `SubtleUtilBoringSSL::GetEcGroup`, the
"curve domain-parameter provider" `LookupGroup(curveKind) -> GroupHandle | Error`
(repository code not in this translation unit).  Per the spec it succeeds for
the NIST prime curves and "fails with UnsupportedCurve" otherwise; the
UnsupportedCurve kind is `util::error::UNIMPLEMENTED`. -/
def GetEcGroup : EllipticCurveType → StatusOr EcGroup
  | .NIST_P256 => .ok 256
  | .NIST_P384 => .ok 384
  | .NIST_P521 => .ok 521
  | _ => .error ⟨.UNIMPLEMENTED, "Unsupported elliptic curve"⟩

/-- The external collaborators called by `GenerateKey`, modelled as an
abstract environment of (deterministic, pure) functions:
`SubtleUtilBoringSSL::EcPointDecode`,
`SubtleUtilBoringSSL::ComputeEcdhSharedSecret`,
`Hkdf::ComputeEciesHkdfSymmetricKey`, and the BoringSSL `X25519` primitive
(which writes its 32-byte output unconditionally; the code ignores its
return value, so it is modelled as a total function). -/
structure Env where
  ecPointDecode : EllipticCurveType → EcPointFormat → Bytes → StatusOr EcPoint
  computeEcdhSharedSecret : EllipticCurveType → Nat → EcPoint → StatusOr Bytes
  computeEciesHkdfSymmetricKey :
    HashType → Bytes → Bytes → Bytes → Bytes → Nat → StatusOr Bytes
  x25519 : Bytes → Bytes → Bytes

/-- State of an `EciesHkdfNistPCurveRecipientKemBoringSsl` object: the three
member fields set by its constructor. -/
structure EciesHkdfNistPCurveRecipientKemBoringSsl where
  curve_ : EllipticCurveType
  priv_key_value_ : Bytes
  ec_group_ : EcGroup
  deriving DecidableEq, Repr

/-- State of an `EciesHkdfX25519RecipientKemBoringSsl` object: the
`private_key_[X25519_PRIVATE_KEY_LEN]` member array. -/
structure EciesHkdfX25519RecipientKemBoringSsl where
  private_key_ : Bytes
  deriving DecidableEq, Repr

/-- A constructed recipient KEM: one of the two concrete strategies behind
the `EciesHkdfRecipientKemBoringSsl` interface. -/
inductive EciesHkdfRecipientKemBoringSsl where
  | nistP (kem : EciesHkdfNistPCurveRecipientKemBoringSsl)
  | x25519 (kem : EciesHkdfX25519RecipientKemBoringSsl)
  deriving DecidableEq, Repr

/-- The `EciesHkdfX25519RecipientKemBoringSsl` constructor:
`private_key.copy(private_key_, X25519_PRIVATE_KEY_LEN)` copies the leading
`min(X25519_PRIVATE_KEY_LEN, private_key.size())` bytes into the member
array. -/
def EciesHkdfX25519RecipientKemBoringSsl.ctor (private_key : Bytes) :
    EciesHkdfX25519RecipientKemBoringSsl :=
  ⟨private_key.take X25519_PRIVATE_KEY_LEN⟩

/-- `EciesHkdfNistPCurveRecipientKemBoringSsl::New`. -/
def EciesHkdfNistPCurveRecipientKemBoringSsl.New (curve : EllipticCurveType)
    (priv_key : Bytes) : StatusOr EciesHkdfRecipientKemBoringSsl :=
  if priv_key.isEmpty then
    .error ⟨.INVALID_ARGUMENT, "empty priv_key"⟩
  else
    match GetEcGroup curve with
    | .error s => .error s
    | .ok g => .ok (.nistP ⟨curve, priv_key, g⟩)

/-- `EciesHkdfX25519RecipientKemBoringSsl::New`. -/
def EciesHkdfX25519RecipientKemBoringSsl.New (curve : EllipticCurveType)
    (priv_key : Bytes) : StatusOr EciesHkdfRecipientKemBoringSsl :=
  if curve ≠ EllipticCurveType.CURVE25519 then
    .error ⟨.INVALID_ARGUMENT, "curve is not CURVE25519"⟩
  else if priv_key.length ≠ X25519_PUBLIC_VALUE_LEN then
    .error ⟨.INVALID_ARGUMENT, "pubx has unexpected length"⟩
  else
    .ok (.x25519 (EciesHkdfX25519RecipientKemBoringSsl.ctor priv_key))

/-- `EciesHkdfRecipientKemBoringSsl::New`: the dispatcher. -/
def EciesHkdfRecipientKemBoringSsl.New (curve : EllipticCurveType)
    (priv_key : Bytes) : StatusOr EciesHkdfRecipientKemBoringSsl :=
  match curve with
  | .NIST_P256 => EciesHkdfNistPCurveRecipientKemBoringSsl.New curve priv_key
  | .NIST_P384 => EciesHkdfNistPCurveRecipientKemBoringSsl.New curve priv_key
  | .NIST_P521 => EciesHkdfNistPCurveRecipientKemBoringSsl.New curve priv_key
  | .CURVE25519 => EciesHkdfX25519RecipientKemBoringSsl.New curve priv_key
  | _ => .error ⟨.UNIMPLEMENTED, "Unsupported elliptic curve"⟩

/-- `EciesHkdfNistPCurveRecipientKemBoringSsl::GenerateKey`. -/
def EciesHkdfNistPCurveRecipientKemBoringSsl.GenerateKey (env : Env)
    (self : EciesHkdfNistPCurveRecipientKemBoringSsl) (kem_bytes : Bytes)
    (hash : HashType) (hkdf_salt hkdf_info : Bytes) (key_size_in_bytes : Nat)
    (point_format : EcPointFormat) : StatusOr Bytes :=
  match env.ecPointDecode self.curve_ point_format kem_bytes with
  | .error s =>
      .error ⟨.INVALID_ARGUMENT, "Invalid KEM bytes: " ++ s.message⟩
  | .ok pub_key =>
      match env.computeEcdhSharedSecret self.curve_
          (BN_bin2bn self.priv_key_value_) pub_key with
      | .error s => .error s
      | .ok shared_secret =>
          env.computeEciesHkdfSymmetricKey hash kem_bytes shared_secret
            hkdf_salt hkdf_info key_size_in_bytes

/-- `EciesHkdfX25519RecipientKemBoringSsl::GenerateKey`. -/
def EciesHkdfX25519RecipientKemBoringSsl.GenerateKey (env : Env)
    (self : EciesHkdfX25519RecipientKemBoringSsl) (kem_bytes : Bytes)
    (hash : HashType) (hkdf_salt hkdf_info : Bytes) (key_size_in_bytes : Nat)
    (point_format : EcPointFormat) : StatusOr Bytes :=
  if point_format ≠ EcPointFormat.COMPRESSED then
    .error ⟨.INVALID_ARGUMENT,
      "X25519 only supports compressed elliptic curve points"⟩
  else if kem_bytes.length ≠ X25519_PUBLIC_VALUE_LEN then
    .error ⟨.INVALID_ARGUMENT, "kem_bytes has unexpected size"⟩
  else
    env.computeEciesHkdfSymmetricKey hash kem_bytes
      (env.x25519 self.private_key_ kem_bytes) hkdf_salt hkdf_info
      key_size_in_bytes

/-- Virtual dispatch of `GenerateKey` over the two strategies. -/
def EciesHkdfRecipientKemBoringSsl.GenerateKey (env : Env)
    (self : EciesHkdfRecipientKemBoringSsl) (kem_bytes : Bytes)
    (hash : HashType) (hkdf_salt hkdf_info : Bytes) (key_size_in_bytes : Nat)
    (point_format : EcPointFormat) : StatusOr Bytes :=
  match self with
  | .nistP k =>
      k.GenerateKey env kem_bytes hash hkdf_salt hkdf_info key_size_in_bytes
        point_format
  | .x25519 k =>
      k.GenerateKey env kem_bytes hash hkdf_salt hkdf_info key_size_in_bytes
        point_format

/-- A `GenerateKey` call viewed as a state transformer on the instance: both
C++ methods are `const` and assign to no member and no global, so a call
returns its result together with the unchanged instance state. -/
def EciesHkdfRecipientKemBoringSsl.GenerateKeyCall (env : Env)
    (self : EciesHkdfRecipientKemBoringSsl) (kem_bytes : Bytes)
    (hash : HashType) (hkdf_salt hkdf_info : Bytes) (key_size_in_bytes : Nat)
    (point_format : EcPointFormat) :
    StatusOr Bytes × EciesHkdfRecipientKemBoringSsl :=
  (self.GenerateKey env kem_bytes hash hkdf_salt hkdf_info key_size_in_bytes
    point_format, self)

/-- A concrete environment of deterministic collaborators, used only to
evaluate the theorems below at concrete inputs. -/
def demoEnv : Env where
  ecPointDecode := fun _ fmt b =>
    if fmt = EcPointFormat.COMPRESSED ∧ b = [2, 7] then .ok 7
    else .error ⟨.INVALID_ARGUMENT, "point decoding failed"⟩
  computeEcdhSharedSecret := fun _ n p =>
    if n = 0 then .error ⟨.INTERNAL, "shared secret is the point at infinity"⟩
    else .ok [n % 256, p % 256]
  computeEciesHkdfSymmetricKey := fun _ kem shared salt info len =>
    if len = 0 then .error ⟨.INVALID_ARGUMENT, "invalid key size"⟩
    else .ok ((kem ++ shared ++ salt ++ info).take len)
  x25519 := fun a b => List.zipWith (fun x y => (x + y) % 256) a b

/-- C1: for every prime-curve `GenerateKey` call whose point decoding succeeds,
the result is exactly the key-derivation step applied to
`(hash, kemBytes, sharedSecret, salt, info, outputLength)`, where
`sharedSecret` is the output of the ECDH collaborator (the x-coordinate of the
scalar multiplication, per its contract) applied to the decoded point and the
private key interpreted as a big-endian unsigned integer (`BN_bin2bn`); stated
as a `bind`, so an error of the ECDH step and an error of the derivation step
are both returned unchanged. -/
theorem C1_nistP_generateKey_spec (env : Env)
    (self : EciesHkdfNistPCurveRecipientKemBoringSsl) (kem_bytes : Bytes)
    (hash : HashType) (hkdf_salt hkdf_info : Bytes) (key_size_in_bytes : Nat)
    (point_format : EcPointFormat) (pt : EcPoint)
    (hdec : env.ecPointDecode self.curve_ point_format kem_bytes = .ok pt) :
    self.GenerateKey env kem_bytes hash hkdf_salt hkdf_info key_size_in_bytes
        point_format
      = (env.computeEcdhSharedSecret self.curve_
            (BN_bin2bn self.priv_key_value_) pt).bind
          (fun shared_secret =>
            env.computeEciesHkdfSymmetricKey hash kem_bytes shared_secret
              hkdf_salt hkdf_info key_size_in_bytes) := by
  unfold EciesHkdfNistPCurveRecipientKemBoringSsl.GenerateKey
  rw [hdec]
  dsimp only
  cases hE : env.computeEcdhSharedSecret self.curve_
      (BN_bin2bn self.priv_key_value_) pt with
  | error s => rfl
  | ok shared_secret => rfl

/-- C1 witness: the theorem evaluated at a concrete instance, environment and
input whose point decoding succeeds. -/
theorem C1_witness :
    demoEnv.ecPointDecode EllipticCurveType.NIST_P256 EcPointFormat.COMPRESSED
        [2, 7] = .ok 7
  ∧ (⟨EllipticCurveType.NIST_P256, [1, 2], 256⟩ :
        EciesHkdfNistPCurveRecipientKemBoringSsl).GenerateKey demoEnv [2, 7]
        HashType.SHA256 [3] [4] 2 EcPointFormat.COMPRESSED
      = (demoEnv.computeEcdhSharedSecret EllipticCurveType.NIST_P256
            (BN_bin2bn [1, 2]) 7).bind
          (fun shared_secret =>
            demoEnv.computeEciesHkdfSymmetricKey HashType.SHA256 [2, 7]
              shared_secret [3] [4] 2) :=
  ⟨rfl,
   C1_nistP_generateKey_spec demoEnv ⟨.NIST_P256, [1, 2], 256⟩ [2, 7] .SHA256
     [3] [4] 2 .COMPRESSED 7 rfl⟩

/-- C2: for every Montgomery `GenerateKey` call with COMPRESSED point format
and 32-byte `kemBytes`, the result is exactly the key-derivation step applied
to `(hash, kemBytes, sharedSecret, salt, info, outputLength)` with
`sharedSecret` the X25519 product of the stored private scalar and `kemBytes`
(32 bytes long, by the primitive's contract `hx`); the X25519 collaborator is a
total function, so any error after the validation is an error of the
derivation step, returned unchanged by the stated equality. -/
theorem C2_x25519_generateKey_spec (env : Env)
    (self : EciesHkdfX25519RecipientKemBoringSsl) (kem_bytes : Bytes)
    (hash : HashType) (hkdf_salt hkdf_info : Bytes) (key_size_in_bytes : Nat)
    (hlen : kem_bytes.length = 32)
    (hx : ∀ a b : Bytes, (env.x25519 a b).length = 32) :
    self.GenerateKey env kem_bytes hash hkdf_salt hkdf_info key_size_in_bytes
        EcPointFormat.COMPRESSED
      = env.computeEciesHkdfSymmetricKey hash kem_bytes
          (env.x25519 self.private_key_ kem_bytes) hkdf_salt hkdf_info
          key_size_in_bytes
  ∧ (env.x25519 self.private_key_ kem_bytes).length = 32 := by
  refine ⟨?_, hx _ _⟩
  unfold EciesHkdfX25519RecipientKemBoringSsl.GenerateKey
  simp [X25519_PUBLIC_VALUE_LEN, hlen]

/-- C2 witness: the theorem evaluated at a concrete instance and input for an
environment whose X25519 collaborator always produces 32 bytes. -/
theorem C2_witness :
    (List.replicate 32 9 : Bytes).length = 32
  ∧ (∀ a b : Bytes, ((Env.mk demoEnv.ecPointDecode
        demoEnv.computeEcdhSharedSecret demoEnv.computeEciesHkdfSymmetricKey
        (fun _ _ => List.replicate 32 1)).x25519 a b).length = 32)
  ∧ ((⟨List.replicate 32 5⟩ : EciesHkdfX25519RecipientKemBoringSsl).GenerateKey
        (Env.mk demoEnv.ecPointDecode demoEnv.computeEcdhSharedSecret
          demoEnv.computeEciesHkdfSymmetricKey
          (fun _ _ => List.replicate 32 1))
        (List.replicate 32 9) HashType.SHA256 [3] [4] 2 EcPointFormat.COMPRESSED
      = (Env.mk demoEnv.ecPointDecode demoEnv.computeEcdhSharedSecret
          demoEnv.computeEciesHkdfSymmetricKey
          (fun _ _ => List.replicate 32 1)).computeEciesHkdfSymmetricKey
          HashType.SHA256 (List.replicate 32 9) (List.replicate 32 1) [3] [4] 2
    ∧ (List.replicate 32 1 : Bytes).length = 32) :=
  ⟨by decide, fun a b => by simp,
   C2_x25519_generateKey_spec
     (Env.mk demoEnv.ecPointDecode demoEnv.computeEcdhSharedSecret
       demoEnv.computeEciesHkdfSymmetricKey (fun _ _ => List.replicate 32 1))
     ⟨List.replicate 32 5⟩ (List.replicate 32 9) .SHA256 [3] [4] 2
     (by decide) (fun a b => by simp)⟩

/-- C3: for every prime-curve `GenerateKey` call whose point decoding fails
(malformed encoding, off-curve point or identity, all reported by the decode
collaborator), the call returns `INVALID_ARGUMENT` with the
"Invalid KEM bytes" message; the conclusion is universally quantified over the
stored private-key bytes and group handle, so the outcome is independent of
the private key — the decode happens before the private key enters any
computation. -/
theorem C3_nistP_generateKey_bad_kem (env : Env) (curve : EllipticCurveType)
    (kem_bytes : Bytes) (hash : HashType) (hkdf_salt hkdf_info : Bytes)
    (key_size_in_bytes : Nat) (point_format : EcPointFormat) (s : Status)
    (hdec : env.ecPointDecode curve point_format kem_bytes = .error s) :
    ∀ priv_key_value ec_group,
      EciesHkdfNistPCurveRecipientKemBoringSsl.GenerateKey env
          ⟨curve, priv_key_value, ec_group⟩ kem_bytes hash hkdf_salt hkdf_info
          key_size_in_bytes point_format
        = .error ⟨ErrorCode.INVALID_ARGUMENT,
            "Invalid KEM bytes: " ++ s.message⟩ := by
  intro priv_key_value ec_group
  unfold EciesHkdfNistPCurveRecipientKemBoringSsl.GenerateKey
  rw [show (⟨curve, priv_key_value, ec_group⟩ :
      EciesHkdfNistPCurveRecipientKemBoringSsl).curve_ = curve from rfl, hdec]

/-- C3 witness: the theorem evaluated at a concrete environment and input
whose point decoding fails, for two different private keys. -/
theorem C3_witness :
    demoEnv.ecPointDecode EllipticCurveType.NIST_P256 EcPointFormat.UNCOMPRESSED
        [9] = .error ⟨ErrorCode.INVALID_ARGUMENT, "point decoding failed"⟩
  ∧ EciesHkdfNistPCurveRecipientKemBoringSsl.GenerateKey demoEnv
        ⟨EllipticCurveType.NIST_P256, [1], 256⟩ [9] HashType.SHA256 [] [] 16
        EcPointFormat.UNCOMPRESSED
      = .error ⟨ErrorCode.INVALID_ARGUMENT,
          "Invalid KEM bytes: " ++ "point decoding failed"⟩
  ∧ EciesHkdfNistPCurveRecipientKemBoringSsl.GenerateKey demoEnv
        ⟨EllipticCurveType.NIST_P256, [200, 201], 256⟩ [9] HashType.SHA256 [] []
        16 EcPointFormat.UNCOMPRESSED
      = .error ⟨ErrorCode.INVALID_ARGUMENT,
          "Invalid KEM bytes: " ++ "point decoding failed"⟩ :=
  ⟨rfl,
   C3_nistP_generateKey_bad_kem demoEnv .NIST_P256 [9] .SHA256 [] [] 16
     .UNCOMPRESSED ⟨.INVALID_ARGUMENT, "point decoding failed"⟩ rfl [1] 256,
   C3_nistP_generateKey_bad_kem demoEnv .NIST_P256 [9] .SHA256 [] [] 16
     .UNCOMPRESSED ⟨.INVALID_ARGUMENT, "point decoding failed"⟩ rfl [200, 201]
     256⟩

/-- C4: for every Montgomery `GenerateKey` call, a point format other than
COMPRESSED yields `INVALID_ARGUMENT` for every private key and every
`kemBytes` whatsoever (so before the length check and before any use of the
private key), and with COMPRESSED format a `kemBytes` whose length is not 32
yields `INVALID_ARGUMENT` for every private key (so before any scalar
multiplication, which would involve the private key). -/
theorem C4_x25519_generateKey_validation (env : Env) (kem_bytes : Bytes)
    (hash : HashType) (hkdf_salt hkdf_info : Bytes) (key_size_in_bytes : Nat)
    (point_format : EcPointFormat) :
    (point_format ≠ EcPointFormat.COMPRESSED →
      ∀ (priv : Bytes) (kem_any : Bytes),
        EciesHkdfX25519RecipientKemBoringSsl.GenerateKey env ⟨priv⟩ kem_any
            hash hkdf_salt hkdf_info key_size_in_bytes point_format
          = .error ⟨ErrorCode.INVALID_ARGUMENT,
              "X25519 only supports compressed elliptic curve points"⟩)
  ∧ (kem_bytes.length ≠ 32 →
      ∀ priv : Bytes,
        EciesHkdfX25519RecipientKemBoringSsl.GenerateKey env ⟨priv⟩ kem_bytes
            hash hkdf_salt hkdf_info key_size_in_bytes EcPointFormat.COMPRESSED
          = .error ⟨ErrorCode.INVALID_ARGUMENT,
              "kem_bytes has unexpected size"⟩) := by
  constructor
  · intro hfmt priv kem_any
    unfold EciesHkdfX25519RecipientKemBoringSsl.GenerateKey
    simp [hfmt]
  · intro hlen priv
    unfold EciesHkdfX25519RecipientKemBoringSsl.GenerateKey
    simp [X25519_PUBLIC_VALUE_LEN, hlen]

/-- C4 witness: the theorem evaluated with an UNCOMPRESSED format (a 32-byte
`kemBytes` notwithstanding) and with a COMPRESSED format but 31-byte
`kemBytes`. -/
theorem C4_witness :
    (EcPointFormat.UNCOMPRESSED ≠ EcPointFormat.COMPRESSED
      ∧ EciesHkdfX25519RecipientKemBoringSsl.GenerateKey demoEnv
          ⟨List.replicate 32 5⟩ (List.replicate 32 9) HashType.SHA256 [] [] 16
          EcPointFormat.UNCOMPRESSED
        = .error ⟨ErrorCode.INVALID_ARGUMENT,
            "X25519 only supports compressed elliptic curve points"⟩)
  ∧ ((List.replicate 31 9 : Bytes).length ≠ 32
      ∧ EciesHkdfX25519RecipientKemBoringSsl.GenerateKey demoEnv
          ⟨List.replicate 32 5⟩ (List.replicate 31 9) HashType.SHA256 [] [] 16
          EcPointFormat.COMPRESSED
        = .error ⟨ErrorCode.INVALID_ARGUMENT,
            "kem_bytes has unexpected size"⟩) :=
  ⟨⟨by decide,
    (C4_x25519_generateKey_validation demoEnv (List.replicate 32 9) .SHA256 []
        [] 16 .UNCOMPRESSED).1 (by decide) (List.replicate 32 5)
      (List.replicate 32 9)⟩,
   ⟨by decide,
    (C4_x25519_generateKey_validation demoEnv (List.replicate 31 9) .SHA256 []
        [] 16 .COMPRESSED).2 (by decide) (List.replicate 32 5)⟩⟩

/-- C5: `EciesHkdfX25519RecipientKemBoringSsl::New` fails with
`INVALID_ARGUMENT` whenever the curve is not CURVE25519; fails with
`INVALID_ARGUMENT` whenever the private-key length differs from the 32-byte
`X25519_PUBLIC_VALUE_LEN` (no scalar multiplication can occur: `New` takes no
collaborator environment at all); and on success stores exactly the 32
private-key bytes unchanged. -/
theorem C5_x25519_new_spec (curve : EllipticCurveType) (priv_key : Bytes) :
    (curve ≠ EllipticCurveType.CURVE25519 →
      EciesHkdfX25519RecipientKemBoringSsl.New curve priv_key
        = .error ⟨ErrorCode.INVALID_ARGUMENT, "curve is not CURVE25519"⟩)
  ∧ (curve = EllipticCurveType.CURVE25519 → priv_key.length ≠ 32 →
      EciesHkdfX25519RecipientKemBoringSsl.New curve priv_key
        = .error ⟨ErrorCode.INVALID_ARGUMENT, "pubx has unexpected length"⟩)
  ∧ (curve = EllipticCurveType.CURVE25519 → priv_key.length = 32 →
      EciesHkdfX25519RecipientKemBoringSsl.New curve priv_key
        = .ok (.x25519 ⟨priv_key⟩)) := by
  refine ⟨?_, ?_, ?_⟩
  · intro hcurve
    unfold EciesHkdfX25519RecipientKemBoringSsl.New
    simp [hcurve]
  · intro hcurve hlen
    unfold EciesHkdfX25519RecipientKemBoringSsl.New
    simp [hcurve, X25519_PUBLIC_VALUE_LEN, hlen]
  · intro hcurve hlen
    unfold EciesHkdfX25519RecipientKemBoringSsl.New
    have htake : priv_key.take 32 = priv_key := by
      rw [← hlen]
      simp
    simp [hcurve, X25519_PUBLIC_VALUE_LEN, hlen,
      EciesHkdfX25519RecipientKemBoringSsl.ctor, X25519_PRIVATE_KEY_LEN, htake]

/-- C5 witness: the theorem evaluated at a NIST curve, at a 31-byte key, and
at a 32-byte key whose bytes are stored unchanged. -/
theorem C5_witness :
    (EllipticCurveType.NIST_P256 ≠ EllipticCurveType.CURVE25519
      ∧ EciesHkdfX25519RecipientKemBoringSsl.New EllipticCurveType.NIST_P256
          (List.replicate 32 5)
        = .error ⟨ErrorCode.INVALID_ARGUMENT, "curve is not CURVE25519"⟩)
  ∧ ((List.replicate 31 5 : Bytes).length ≠ 32
      ∧ EciesHkdfX25519RecipientKemBoringSsl.New EllipticCurveType.CURVE25519
          (List.replicate 31 5)
        = .error ⟨ErrorCode.INVALID_ARGUMENT, "pubx has unexpected length"⟩)
  ∧ ((List.replicate 32 5 : Bytes).length = 32
      ∧ EciesHkdfX25519RecipientKemBoringSsl.New EllipticCurveType.CURVE25519
          (List.replicate 32 5)
        = .ok (.x25519 ⟨List.replicate 32 5⟩)) :=
  ⟨⟨by decide,
    (C5_x25519_new_spec .NIST_P256 (List.replicate 32 5)).1 (by decide)⟩,
   ⟨by decide,
    (C5_x25519_new_spec .CURVE25519 (List.replicate 31 5)).2.1 rfl (by decide)⟩,
   ⟨by decide,
    (C5_x25519_new_spec .CURVE25519 (List.replicate 32 5)).2.2 rfl
      (by decide)⟩⟩

/-- C6: `EciesHkdfNistPCurveRecipientKemBoringSsl::New` fails with
`INVALID_ARGUMENT` when the private key is empty; when the domain-parameter
lookup (`GetEcGroup`, modelled from the spec) fails, it returns that lookup
error unchanged, and every error `GetEcGroup` produces carries the
UnsupportedCurve kind (`util::error::UNIMPLEMENTED`); on success it stores the
curve kind, the raw private-key bytes and the domain-parameter handle. -/
theorem C6_nistP_new_spec (curve : EllipticCurveType) (priv_key : Bytes) :
    (priv_key = [] →
      EciesHkdfNistPCurveRecipientKemBoringSsl.New curve priv_key
        = .error ⟨ErrorCode.INVALID_ARGUMENT, "empty priv_key"⟩)
  ∧ (priv_key ≠ [] → ∀ s : Status, GetEcGroup curve = .error s →
      EciesHkdfNistPCurveRecipientKemBoringSsl.New curve priv_key = .error s
        ∧ s.code = ErrorCode.UNIMPLEMENTED)
  ∧ (priv_key ≠ [] → ∀ g : EcGroup, GetEcGroup curve = .ok g →
      EciesHkdfNistPCurveRecipientKemBoringSsl.New curve priv_key
        = .ok (.nistP ⟨curve, priv_key, g⟩)) := by
  refine ⟨?_, ?_, ?_⟩
  · intro hempty
    subst hempty
    rfl
  · intro hne s hs
    have hnotempty : priv_key.isEmpty = false := by
      cases priv_key with
      | nil => exact absurd rfl hne
      | cons a l => rfl
    constructor
    · unfold EciesHkdfNistPCurveRecipientKemBoringSsl.New
      rw [hnotempty]
      simp [hs]
    · cases curve with
      | NIST_P256 => exact Except.noConfusion hs
      | NIST_P384 => exact Except.noConfusion hs
      | NIST_P521 => exact Except.noConfusion hs
      | UNKNOWN_CURVE =>
          injection hs with h
          rw [← h]
      | CURVE25519 =>
          injection hs with h
          rw [← h]
  · intro hne g hg
    have hnotempty : priv_key.isEmpty = false := by
      cases priv_key with
      | nil => exact absurd rfl hne
      | cons a l => rfl
    unfold EciesHkdfNistPCurveRecipientKemBoringSsl.New
    rw [hnotempty]
    simp [hg]

/-- C6 witness: the theorem evaluated at the empty key, at a curve whose
lookup fails (CURVE25519 reaching this constructor) and at P-256 where the
instance stores curve, key bytes and group handle. -/
theorem C6_witness :
    EciesHkdfNistPCurveRecipientKemBoringSsl.New EllipticCurveType.NIST_P256 []
      = .error ⟨ErrorCode.INVALID_ARGUMENT, "empty priv_key"⟩
  ∧ (EciesHkdfNistPCurveRecipientKemBoringSsl.New
        EllipticCurveType.UNKNOWN_CURVE [1]
        = .error ⟨ErrorCode.UNIMPLEMENTED, "Unsupported elliptic curve"⟩
      ∧ (⟨ErrorCode.UNIMPLEMENTED, "Unsupported elliptic curve"⟩ : Status).code
          = ErrorCode.UNIMPLEMENTED)
  ∧ EciesHkdfNistPCurveRecipientKemBoringSsl.New EllipticCurveType.NIST_P256
        [1, 2]
      = .ok (.nistP ⟨EllipticCurveType.NIST_P256, [1, 2], 256⟩) :=
  ⟨(C6_nistP_new_spec .NIST_P256 []).1 rfl,
   (C6_nistP_new_spec .UNKNOWN_CURVE [1]).2.1 (by decide)
     ⟨.UNIMPLEMENTED, "Unsupported elliptic curve"⟩ rfl,
   (C6_nistP_new_spec .NIST_P256 [1, 2]).2.2 (by decide) 256 rfl⟩

/-- C7: the dispatcher `EciesHkdfRecipientKemBoringSsl::New` routes P-256,
P-384 and P-521 to the prime-curve constructor, routes CURVE25519 to the
Montgomery constructor, returning the chosen constructor's result unchanged in
each case, and for every other curve kind fails with the UnsupportedCurve kind
(`util::error::UNIMPLEMENTED`, "Unsupported elliptic curve"). -/
theorem C7_dispatcher_spec (curve : EllipticCurveType) (priv_key : Bytes) :
    ((curve = EllipticCurveType.NIST_P256 ∨ curve = EllipticCurveType.NIST_P384
        ∨ curve = EllipticCurveType.NIST_P521) →
      EciesHkdfRecipientKemBoringSsl.New curve priv_key
        = EciesHkdfNistPCurveRecipientKemBoringSsl.New curve priv_key)
  ∧ (curve = EllipticCurveType.CURVE25519 →
      EciesHkdfRecipientKemBoringSsl.New curve priv_key
        = EciesHkdfX25519RecipientKemBoringSsl.New curve priv_key)
  ∧ (curve ≠ EllipticCurveType.NIST_P256 →
      curve ≠ EllipticCurveType.NIST_P384 →
      curve ≠ EllipticCurveType.NIST_P521 →
      curve ≠ EllipticCurveType.CURVE25519 →
      EciesHkdfRecipientKemBoringSsl.New curve priv_key
        = .error ⟨ErrorCode.UNIMPLEMENTED, "Unsupported elliptic curve"⟩) := by
  refine ⟨?_, ?_, ?_⟩
  · rintro (h | h | h) <;> subst h <;> rfl
  · intro h
    subst h
    rfl
  · intro h1 h2 h3 h4
    cases curve with
    | UNKNOWN_CURVE => rfl
    | NIST_P256 => exact absurd rfl h1
    | NIST_P384 => exact absurd rfl h2
    | NIST_P521 => exact absurd rfl h3
    | CURVE25519 => exact absurd rfl h4

/-- C7 witness: the theorem evaluated at P-384, at CURVE25519 and at the
remaining curve kind. -/
theorem C7_witness :
    EciesHkdfRecipientKemBoringSsl.New EllipticCurveType.NIST_P384 [7]
      = EciesHkdfNistPCurveRecipientKemBoringSsl.New EllipticCurveType.NIST_P384
          [7]
  ∧ EciesHkdfRecipientKemBoringSsl.New EllipticCurveType.CURVE25519 [7]
      = EciesHkdfX25519RecipientKemBoringSsl.New EllipticCurveType.CURVE25519
          [7]
  ∧ EciesHkdfRecipientKemBoringSsl.New EllipticCurveType.UNKNOWN_CURVE [7]
      = .error ⟨ErrorCode.UNIMPLEMENTED, "Unsupported elliptic curve"⟩ :=
  ⟨(C7_dispatcher_spec .NIST_P384 [7]).1 (Or.inr (Or.inl rfl)),
   (C7_dispatcher_spec .CURVE25519 [7]).2.1 rfl,
   (C7_dispatcher_spec .UNKNOWN_CURVE [7]).2.2 (by decide) (by decide)
     (by decide) (by decide)⟩

/-- C8: a `GenerateKey` call, viewed as a state transformer on the instance
(`GenerateKeyCall`), leaves the instance — hence the stored private key and
curve kind — unchanged, and a second call with identical inputs on the
instance returned by the first call yields the identical result.  The
collaborators are functions of the environment, hence deterministic, matching
the claim's assumption. -/
theorem C8_generateKey_deterministic (env : Env)
    (self : EciesHkdfRecipientKemBoringSsl) (kem_bytes : Bytes)
    (hash : HashType) (hkdf_salt hkdf_info : Bytes) (key_size_in_bytes : Nat)
    (point_format : EcPointFormat) :
    (EciesHkdfRecipientKemBoringSsl.GenerateKeyCall env self kem_bytes hash
        hkdf_salt hkdf_info key_size_in_bytes point_format).2 = self
  ∧ (EciesHkdfRecipientKemBoringSsl.GenerateKeyCall env
        (EciesHkdfRecipientKemBoringSsl.GenerateKeyCall env self kem_bytes hash
          hkdf_salt hkdf_info key_size_in_bytes point_format).2 kem_bytes hash
        hkdf_salt hkdf_info key_size_in_bytes point_format).1
      = (EciesHkdfRecipientKemBoringSsl.GenerateKeyCall env self kem_bytes hash
          hkdf_salt hkdf_info key_size_in_bytes point_format).1 :=
  ⟨rfl, rfl⟩

/-- C10: the dispatcher called with CURVE25519 and an empty private key fails
with `INVALID_ARGUMENT`, and the error is the Montgomery constructor's
32-byte length-check error ("pubx has unexpected length") — the same status
returned for every other wrong-length key, there being no dedicated
empty-key check on this path. -/
theorem C10_create_curve25519_empty_key :
    EciesHkdfRecipientKemBoringSsl.New EllipticCurveType.CURVE25519 []
      = .error ⟨ErrorCode.INVALID_ARGUMENT, "pubx has unexpected length"⟩
  ∧ ∀ priv_key : Bytes, priv_key.length ≠ 32 →
      EciesHkdfRecipientKemBoringSsl.New EllipticCurveType.CURVE25519 priv_key
        = .error ⟨ErrorCode.INVALID_ARGUMENT, "pubx has unexpected length"⟩ := by
  constructor
  · rfl
  · intro priv_key hlen
    show EciesHkdfX25519RecipientKemBoringSsl.New EllipticCurveType.CURVE25519
        priv_key = _
    unfold EciesHkdfX25519RecipientKemBoringSsl.New
    simp [X25519_PUBLIC_VALUE_LEN, hlen]

/-- C10 witness: the theorem applied to the empty key and to a 31-byte key,
both rejected with the identical length-check status. -/
theorem C10_witness :
    EciesHkdfRecipientKemBoringSsl.New EllipticCurveType.CURVE25519 []
      = .error ⟨ErrorCode.INVALID_ARGUMENT, "pubx has unexpected length"⟩
  ∧ EciesHkdfRecipientKemBoringSsl.New EllipticCurveType.CURVE25519
        (List.replicate 31 5)
      = .error ⟨ErrorCode.INVALID_ARGUMENT, "pubx has unexpected length"⟩ :=
  ⟨C10_create_curve25519_empty_key.1,
   C10_create_curve25519_empty_key.2 (List.replicate 31 5) (by decide)⟩
